import Mathlib

/-!
Verification of the session / workflow orchestration layer of the
`talka_recorder_rst` recording client
(`examples/16_full_metal_app/{auth.rs, upload.rs, main.rs}`).

The Rust code is shallowly embedded: time is a `Nat` count of Unix seconds
(the code uses `u64` seconds throughout, far from overflow on realistic
inputs), network exchanges become explicit parameters holding the server
response each call would have produced, and the side-effecting loops become
pure functions that also return the trace of waits / status transitions /
network events they would have performed.
-/

namespace Talka

/-! ## auth.rs: data model -/

/-- `AuthTokens` (auth.rs lines 63-72).  `expires_in` and `expires_at` are
`u64` seconds in the source; embedded as `Nat`. -/
structure AuthTokens where
  access_token : String
  refresh_token : String
  id_token : String
  token_type : String
  expires_in : Nat
  expires_at : Nat
  deriving Repr, DecidableEq

/-- `AuthError` (auth.rs lines 103-112). -/
inductive AuthError where
  | NetworkError (msg : String)
  | AuthorizationPending
  | SlowDown
  | AccessDenied
  | ExpiredToken
  | InvalidRequest (msg : String)
  | Unknown (msg : String)
  deriving Repr, DecidableEq

/-- The `TokenResponse` untagged union (auth.rs lines 45-61): either the
success shape or the error shape.  In the success shape `refresh_token` and
`id_token` carry `#[serde(default)]`, so an omitted field arrives as the
empty string; an omitted `error_description` is `none`. -/
inductive TokenResponse where
  | Success (access_token refresh_token id_token token_type : String)
      (expires_in : Nat)
  | Error (error : String) (error_description : Option String)
  deriving Repr, DecidableEq

/-- `AuthTokens::is_expired` (auth.rs lines 76-83), with the wall clock `now`
(Unix seconds) made an explicit argument.  `Nat` subtraction is exactly the
source's `saturating_sub`. -/
def AuthTokens.is_expired (t : AuthTokens) (now : Nat) : Bool :=
  t.expires_at - now < 300

/-- `AuthTokens::update_expiration` (auth.rs lines 86-92). -/
def AuthTokens.update_expiration (t : AuthTokens) (now : Nat) : AuthTokens :=
  { t with expires_at := now + t.expires_in }

/-! ## auth.rs: poll_for_token and refresh_access_token

Each network function is embedded as a pure function of the decoded
`TokenResponse` the server sent back (transport failures are out of the
branch these claims exercise) and of the wall-clock instant `now` at which
the response is processed. -/

/-- `poll_for_token` (auth.rs lines 184-242), given the decoded server
response.  On success `expires_at = now + expires_in`; error codes map to
the typed outcomes. -/
def poll_for_token (resp : TokenResponse) (now : Nat) :
    Except AuthError AuthTokens :=
  match resp with
  | .Success access_token refresh_token id_token token_type expires_in =>
      .ok { access_token, refresh_token, id_token, token_type, expires_in,
            expires_at := now + expires_in }
  | .Error error error_description =>
      if error = "authorization_pending" then .error .AuthorizationPending
      else if error = "slow_down" then .error .SlowDown
      else if error = "access_denied" then .error .AccessDenied
      else if error = "expired_token" then .error .ExpiredToken
      else .error (.Unknown (error_description.getD error))

/-- `refresh_access_token` (auth.rs lines 245-309), given the caller's
refresh token and the decoded server response.  An empty `refresh_token`
field in the response (serde default for an omitted field) keeps the old
one; every error response maps to `Unknown`. -/
def refresh_access_token (refresh_token : String) (resp : TokenResponse)
    (now : Nat) : Except AuthError AuthTokens :=
  match resp with
  | .Success access_token new_refresh_token id_token token_type expires_in =>
      let final_refresh_token :=
        if new_refresh_token = "" then refresh_token else new_refresh_token
      .ok { access_token, refresh_token := final_refresh_token, id_token,
            token_type, expires_in, expires_at := now + expires_in }
  | .Error error error_description =>
      .error (.Unknown (error_description.getD error))

/-! ## auth.rs: complete_device_flow polling loop

`complete_device_flow` (auth.rs lines 429-487) drives the loop

    loop {
      if Instant::now() >= expires_at { return Err(ExpiredToken); }
      sleep(poll_interval);
      match poll_for_token(..) {
        Ok(tokens)  => { tokens.update_expiration(); return Ok(tokens); }
        Err(AuthorizationPending) => {}
        Err(SlowDown)             => { poll_interval += 5s; }
        Err(e)                    => return Err(e),
      }
    }

Embedding: each iteration consumes the outcome of the next poll from a
scripted list; `elapsed` is the number of seconds since `start_time`
(network calls take no model time, sleeps take `interval` seconds).  The
function returns the list of waits performed before each poll together with
the loop's result; `none` means the script ran out before the loop
terminated. -/

/-- One scripted poll outcome: the decoded `TokenResponse` that
`poll_for_token` receives. -/
abbrev PollScript := List TokenResponse

/-- The polling loop of `complete_device_flow` (auth.rs lines 449-487):
`expiresIn` is `device_response.expires_in`, `elapsed` the seconds since
`start_time`, `interval` the current `poll_interval` in seconds. -/
def complete_device_flow_loop (expiresIn : Nat) (elapsed : Nat)
    (interval : Nat) (script : PollScript) :
    List Nat × Option (Except AuthError AuthTokens) :=
  if expiresIn ≤ elapsed then ([], some (.error .ExpiredToken))
  else
    match script with
    | [] => ([], none)
    | resp :: rest =>
      let pollTime := elapsed + interval
      match poll_for_token resp pollTime with
      | .ok tokens =>
          ([interval], some (.ok (tokens.update_expiration pollTime)))
      | .error .AuthorizationPending =>
          let r := complete_device_flow_loop expiresIn pollTime interval rest
          (interval :: r.1, r.2)
      | .error .SlowDown =>
          let r :=
            complete_device_flow_loop expiresIn pollTime (interval + 5) rest
          (interval :: r.1, r.2)
      | .error e => ([interval], some (.error e))

/-- `complete_device_flow` after a successful `start_device_flow` that
returned poll interval `interval` and device-code lifetime `expiresIn`:
the loop starts at elapsed time 0. -/
def complete_device_flow (expiresIn interval : Nat) (script : PollScript) :
    List Nat × Option (Except AuthError AuthTokens) :=
  complete_device_flow_loop expiresIn 0 interval script

/-! ## auth.rs: get_valid_tokens -/

/-- Network / persistence events `get_valid_tokens` can perform, in order. -/
inductive AuthEvent where
  | refreshCall
  | deviceFlowRun
  | saveCall
  deriving Repr, DecidableEq

/-- The shared tail of `get_valid_tokens` (auth.rs lines 410-418): run the
full device flow, save on success (best-effort), return its result. -/
def device_flow_path (pre : List AuthEvent)
    (deviceFlowResult : Except AuthError AuthTokens) :
    List AuthEvent × Except AuthError AuthTokens :=
  match deviceFlowResult with
  | .ok t => (pre ++ [.deviceFlowRun, .saveCall], .ok t)
  | .error e => (pre ++ [.deviceFlowRun], .error e)

/-- `get_valid_tokens` (auth.rs lines 370-419): `loaded` is what
`load_tokens()` found on disk, `now` the wall clock at the expiry check,
`refreshResult` what `refresh_access_token` would return if called, and
`deviceFlowResult` what `complete_device_flow` would return if run.
Returns the trace of network/persistence events next to the result. -/
def get_valid_tokens (loaded : Option AuthTokens) (now : Nat)
    (refreshResult : Except AuthError AuthTokens)
    (deviceFlowResult : Except AuthError AuthTokens) :
    List AuthEvent × Except AuthError AuthTokens :=
  match loaded with
  | some tokens =>
    if tokens.is_expired now then
      if tokens.refresh_token ≠ "" then
        match refreshResult with
        | .ok new_tokens => ([.refreshCall, .saveCall], .ok new_tokens)
        | .error _ => device_flow_path [.refreshCall] deviceFlowResult
      else
        device_flow_path [] deviceFlowResult
    else
      ([], .ok tokens)
  | none => device_flow_path [] deviceFlowResult

/-! ## auth.rs: token persistence (save_tokens / load_tokens)

`save_tokens` (auth.rs lines 318-324) serialises the `AuthTokens` struct to
a JSON object and writes it to the fixed per-user path; `load_tokens`
(auth.rs lines 327-349) reads that path and deserialises, returning `None`
on absence or parse failure.  The file is embedded as `Option Json` (the
contents at the fixed path, `none` when absent); serde's derived
`Serialize`/`Deserialize` for the struct become an explicit field-list
encoder and a field-lookup decoder (`expires_at` carries `#[serde(default)]`
and so defaults to 0 when missing; every other field is required). -/

/-- A JSON value, restricted to the shapes the credential file uses. -/
inductive Json where
  | str (s : String)
  | num (n : Nat)
  | obj (fields : List (String × Json))

/-- Field lookup in a JSON object (first match, as serde does). -/
def Json.getField : Json → String → Option Json
  | .obj fields, k => (fields.find? (fun p => p.1 = k)).map Prod.snd
  | _, _ => none

def Json.asStr : Json → Option String
  | .str s => some s
  | _ => none

def Json.asNum : Json → Option Nat
  | .num n => some n
  | _ => none

/-- serde `Serialize` for `AuthTokens`: fields in declaration order. -/
def AuthTokens.toJson (t : AuthTokens) : Json :=
  .obj [("access_token", .str t.access_token),
        ("refresh_token", .str t.refresh_token),
        ("id_token", .str t.id_token),
        ("token_type", .str t.token_type),
        ("expires_in", .num t.expires_in),
        ("expires_at", .num t.expires_at)]

/-- serde `Deserialize` for `AuthTokens`: every field required except
`expires_at`, which is `#[serde(default)]` (0 when absent). -/
def AuthTokens.fromJson (j : Json) : Option AuthTokens := do
  let access_token ← (j.getField "access_token").bind Json.asStr
  let refresh_token ← (j.getField "refresh_token").bind Json.asStr
  let id_token ← (j.getField "id_token").bind Json.asStr
  let token_type ← (j.getField "token_type").bind Json.asStr
  let expires_in ← (j.getField "expires_in").bind Json.asNum
  let expires_at := ((j.getField "expires_at").bind Json.asNum).getD 0
  pure { access_token, refresh_token, id_token, token_type, expires_in,
         expires_at }

/-- `save_tokens` (auth.rs lines 318-324): overwrite the token file. -/
def save_tokens (t : AuthTokens) (_file : Option Json) : Option Json :=
  some t.toJson

/-- `load_tokens` (auth.rs lines 327-349): `None` when the file is absent
or fails to parse. -/
def load_tokens (file : Option Json) : Option AuthTokens :=
  file.bind AuthTokens.fromJson

/-! ## upload.rs: data model -/

/-- `UploadStatus` (upload.rs lines 12-20).  `percent` is a `u8` in the
source; `Complete` is a unit variant carrying no payload. -/
inductive UploadStatus where
  | Idle
  | CreatingFile
  | UploadingFile (percent : Nat)
  | CreatingMetadata
  | Complete
  | Failed (reason : String)
  deriving Repr, DecidableEq

/-- `UploadError` (upload.rs lines 71-77). -/
inductive UploadError where
  | Network (msg : String)
  | Io (msg : String)
  | InvalidToken
  | InvalidResponse (msg : String)
  deriving Repr, DecidableEq

/-- `Display for UploadError` (upload.rs lines 79-88). -/
def UploadError.display : UploadError → String
  | .Network msg => "Network error: " ++ msg
  | .Io msg => "I/O error: " ++ msg
  | .InvalidToken => "Invalid or expired access token"
  | .InvalidResponse msg => "Invalid response: " ++ msg

/-- `CreateFileResponse` (upload.rs lines 48-52). -/
structure CreateFileResponse where
  file_id : String
  upload_url : String
  deriving Repr, DecidableEq

/-- `infer_file_type` (upload.rs lines 93-112). -/
def infer_file_type (file_name : String) : String :=
  let lower := file_name.toLower
  if lower.endsWith ".mp3" || lower.endsWith ".flac" ||
     lower.endsWith ".wav" || lower.endsWith ".m4a" ||
     lower.endsWith ".aac" then "mp3"
  else "mp4"

/-! ## upload.rs: upload_recording

`upload_recording` (upload.rs lines 231-297) runs the three HTTP steps in
order and invokes the status callback before/after each.  Each network step
is embedded as a parameter holding the outcome that step's HTTP exchange
would produce; the function returns the list of statuses passed to the
callback (in call order) next to the `Result`.  Note the source reports
`UploadStatus::Failed` nowhere: on a step error it returns `Err` via `?`
without a callback. -/
def upload_recording (file_name : Option String)
    (createResult : Except UploadError CreateFileResponse)
    (uploadResult : Except UploadError Unit)
    (metadataResult : Except UploadError Unit) :
    List UploadStatus × Except UploadError String :=
  match file_name with
  | none => ([], .error (.Io "Invalid file name"))
  | some _ =>
    match createResult with
    | .error e => ([.CreatingFile], .error e)
    | .ok create_response =>
      match uploadResult with
      | .error e => ([.CreatingFile, .UploadingFile 0], .error e)
      | .ok _ =>
        match metadataResult with
        | .error e =>
            ([.CreatingFile, .UploadingFile 0, .UploadingFile 100,
              .CreatingMetadata], .error e)
        | .ok _ =>
            ([.CreatingFile, .UploadingFile 0, .UploadingFile 100,
              .CreatingMetadata, .Complete], .ok create_response.file_id)

/-- Modelled from the spec: `RecordingState::start_upload`, the wrapper the
orchestrator uses to run `upload_recording` as a job, is absent from src/
(only its caller at main.rs lines 1069-1073 is present).  Per the spec's
orchestration contract the job's status starts at `Idle` (the
`Default for UploadStatus`), each callback transition is recorded in order,
and "a failure at any step transitions the job to Failed and skips
remaining steps" with the failure's display text as the reason.  The value
is the full status sequence the job reports. -/
def upload_job_statuses (file_name : Option String)
    (createResult : Except UploadError CreateFileResponse)
    (uploadResult : Except UploadError Unit)
    (metadataResult : Except UploadError Unit) : List UploadStatus :=
  let r := upload_recording file_name createResult uploadResult metadataResult
  match r.2 with
  | .ok _ => .Idle :: r.1
  | .error e => .Idle :: r.1 ++ [.Failed e.display]

/-! ## main.rs: the capture backend command loop (run_capture_backend)

`run_capture_backend` (main.rs lines 906-1164) owns `stream` and
`current_filter` locally and publishes `is_capturing`, `is_recording`,
`source_name`, `upload_status` and `uploaded_file_id` through shared cells.
One loop iteration dispatching a command is embedded as a pure transition
on a snapshot of all of that state; side effects other than state updates
(file deletion, spawning an upload task) are returned as an effect list.
The stream and filter handles are embedded by their presence. -/

structure BackendState where
  stream : Bool
  current_filter : Bool
  is_capturing : Bool
  is_recording : Bool
  source_name : String
  upload_status : String
  uploaded_file_id : String
  deriving Repr, DecidableEq

/-- Effects a command handler performs besides updating the state. -/
inductive BackendEffect where
  | deleteFile (path : String)
  | spawnUpload (path : String)
  deriving Repr, DecidableEq

/-- Modelled from the spec: `input::stop_capture` lives in the `input`
module, which is absent from src/ (only its call sites are).  Per the spec
(§4.4 StopCapture) it "tears down the stream": the stream handle is dropped
and the capturing flag cleared.  (It touches neither the source name nor
the filter — its callers in main.rs clear those themselves.) -/
def stop_capture (st : BackendState) : BackendState :=
  { st with stream := false, is_capturing := false }

/-- The `CaptureCommand::StartRecording` arm (main.rs lines 1006-1021):
only when capturing with a live stream does it ask the recording
collaborator to start; `startResult` is what `recording_state.start` would
return.  On `Ok` the recording flag is set; on `Err` the failure is only
logged. -/
def handle_start_recording (st : BackendState)
    (startResult : Except String String) : BackendState :=
  if st.is_capturing then
    if st.stream then
      match startResult with
      | .ok _ => { st with is_recording := true }
      | .error _ => st
    else st
  else st

/-- The `CaptureCommand::CancelRecording` arm (main.rs lines 1116-1151):
`stopResult` is what `recording_state.stop` would return.  With a live
stream and a completed recording path it clears the recording flag,
deletes the file, tears down capture, clears source name and filter and
clears the upload status; it never spawns an upload. -/
def handle_cancel_recording (st : BackendState) (stopResult : Option String) :
    BackendState × List BackendEffect :=
  if st.stream then
    match stopResult with
    | some path =>
        let st := { st with is_recording := false }
        let st := stop_capture st
        let st := { st with source_name := "No source selected",
                            current_filter := false,
                            upload_status := "" }
        (st, [.deleteFile path])
    | none => (st, [])
  else (st, [])

/-! ## Helper lemmas for the device-flow polling loop -/

/-- One loop iteration on `authorization_pending`: wait one interval, poll,
keep the interval. -/
theorem loop_pending (E elapsed interval : Nat) (rest : PollScript)
    (h : elapsed < E) :
    complete_device_flow_loop E elapsed interval
      (TokenResponse.Error "authorization_pending" none :: rest) =
    (interval ::
       (complete_device_flow_loop E (elapsed + interval) interval rest).1,
     (complete_device_flow_loop E (elapsed + interval) interval rest).2) := by
  conv_lhs => rw [complete_device_flow_loop.eq_def]
  rw [if_neg (Nat.not_le.mpr h)]
  rfl

/-- One loop iteration on `slow_down`: wait one interval, poll, grow the
interval by 5 seconds. -/
theorem loop_slow_down (E elapsed interval : Nat) (rest : PollScript)
    (h : elapsed < E) :
    complete_device_flow_loop E elapsed interval
      (TokenResponse.Error "slow_down" none :: rest) =
    (interval ::
       (complete_device_flow_loop E (elapsed + interval) (interval + 5) rest).1,
     (complete_device_flow_loop E (elapsed + interval) (interval + 5) rest).2) := by
  conv_lhs => rw [complete_device_flow_loop.eq_def]
  rw [if_neg (Nat.not_le.mpr h)]
  rfl

/-- One loop iteration on a success response: wait one interval, poll,
return the tokens with `expires_at` recomputed at the poll instant. -/
theorem loop_success (E elapsed interval ein : Nat) (a r idt tt : String)
    (rest : PollScript) (h : elapsed < E) :
    complete_device_flow_loop E elapsed interval
      (TokenResponse.Success a r idt tt ein :: rest) =
    ([interval],
     some (.ok ⟨a, r, idt, tt, ein, elapsed + interval + ein⟩)) := by
  conv_lhs => rw [complete_device_flow_loop.eq_def]
  rw [if_neg (Nat.not_le.mpr h)]
  rfl

/-- The wait list of the polling loop never goes below the interval it
started with, and is nondecreasing along the session. -/
theorem loop_waits_mono (script : PollScript) :
    ∀ (E elapsed interval : Nat),
      (∀ w ∈ (complete_device_flow_loop E elapsed interval script).1,
          interval ≤ w) ∧
      List.Chain' (· ≤ ·)
        (complete_device_flow_loop E elapsed interval script).1 := by
  induction script with
  | nil =>
      intro E elapsed interval
      rw [complete_device_flow_loop.eq_def]
      split <;> simp
  | cons resp rest ih =>
      intro E elapsed interval
      rw [complete_device_flow_loop.eq_def]
      split
      · simp
      · cases hp : poll_for_token resp (elapsed + interval) with
        | ok tokens => simp [hp]
        | error e =>
          cases e with
          | AuthorizationPending =>
              have hih := ih E (elapsed + interval) interval
              simp only [hp]
              refine ⟨?_, ?_⟩
              · intro w hw
                rcases List.mem_cons.mp hw with h | h
                · omega
                · exact hih.1 w h
              · exact List.chain'_cons'.mpr
                  ⟨fun y hy => hih.1 y (List.mem_of_mem_head? hy), hih.2⟩
          | SlowDown =>
              have hih := ih E (elapsed + interval) (interval + 5)
              simp only [hp]
              refine ⟨?_, ?_⟩
              · intro w hw
                rcases List.mem_cons.mp hw with h | h
                · omega
                · have := hih.1 w h; omega
              · exact List.chain'_cons'.mpr
                  ⟨fun y hy => by have := hih.1 y (List.mem_of_mem_head? hy); omega,
                   hih.2⟩
          | NetworkError msg => simp [hp]
          | AccessDenied => simp [hp]
          | ExpiredToken => simp [hp]
          | InvalidRequest msg => simp [hp]
          | Unknown msg => simp [hp]

/-! ## Claim theorems -/

/-- C1: a device-flow session with initial interval `i` whose poll outcomes
are `[authorization_pending, authorization_pending, slow_down, success]`
waits exactly `[i, i, i, i+5]` seconds before the four polls; the interval
grows by 5 on `slow_down`, is unchanged on `authorization_pending`, and
(last conjunct, for every session) the waits never drop below the starting
interval and are nondecreasing.  The credential returned by the successful
poll (performed at elapsed time `4*i+5`) has
`expires_at = poll time + expires_in`.  The hypothesis `3*i < E` says the
device code has not expired at the fourth iteration's expiry check. -/
theorem device_flow_wait_intervals (i E ein : Nat) (a r idt tt : String)
    (h : 3 * i < E) :
    complete_device_flow E i
      [.Error "authorization_pending" none, .Error "authorization_pending" none,
       .Error "slow_down" none, .Success a r idt tt ein] =
      ([i, i, i, i + 5],
       some (.ok ⟨a, r, idt, tt, ein, (4 * i + 5) + ein⟩)) ∧
    (∀ (E' elapsed interval : Nat) (script : PollScript),
      (∀ w ∈ (complete_device_flow_loop E' elapsed interval script).1,
          interval ≤ w) ∧
      List.Chain' (· ≤ ·)
        (complete_device_flow_loop E' elapsed interval script).1) := by
  refine ⟨?_, fun E' elapsed interval script => loop_waits_mono script E' elapsed interval⟩
  rw [complete_device_flow,
      loop_pending _ _ _ _ (by omega),
      loop_pending _ _ _ _ (by omega),
      loop_slow_down _ _ _ _ (by omega),
      loop_success _ _ _ _ _ _ _ _ _ (by omega)]
  have harith : 0 + i + i + i + (i + 5) + ein = 4 * i + 5 + ein := by ring
  rw [harith]

/-- C1 witness: the theorem instantiated at interval 5, device-code
lifetime 100 seconds and a 3600-second token. -/
theorem device_flow_wait_intervals_witness :
    3 * 5 < 100 ∧
    complete_device_flow 100 5
      [.Error "authorization_pending" none, .Error "authorization_pending" none,
       .Error "slow_down" none, .Success "at" "rt" "it" "Bearer" 3600] =
      ([5, 5, 5, 10], some (.ok ⟨"at", "rt", "it", "Bearer", 3600, 3625⟩)) := by
  have h :=
    (device_flow_wait_intervals 5 100 3600 "at" "rt" "it" "Bearer" (by decide)).1
  norm_num at h
  exact ⟨by norm_num, h⟩

/-- C2: `is_expired` is true iff fewer than 300 seconds (computed with
saturating subtraction) remain before `expires_at`: false at exactly 300
seconds remaining, true at 299, and true whenever `expires_at` has passed. -/
theorem is_expired_boundary (t : AuthTokens) (now : Nat) :
    (t.is_expired now = true ↔ t.expires_at - now < 300) ∧
    (t.expires_at = now + 300 → t.is_expired now = false) ∧
    (t.expires_at = now + 299 → t.is_expired now = true) ∧
    (t.expires_at ≤ now → t.is_expired now = true) := by
  refine ⟨by simp [AuthTokens.is_expired], fun h => ?_, fun h => ?_, fun h => ?_⟩
  · simp only [AuthTokens.is_expired, decide_eq_false_iff_not]
    omega
  · simp only [AuthTokens.is_expired, decide_eq_true_eq]
    omega
  · simp only [AuthTokens.is_expired, decide_eq_true_eq]
    omega

/-- C2 witness: both sides of the 300-second boundary and an already-past
expiry, at `now = 1000`. -/
theorem is_expired_boundary_witness :
    (AuthTokens.mk "a" "r" "i" "B" 3600 1300).is_expired 1000 = false ∧
    (AuthTokens.mk "a" "r" "i" "B" 3600 1299).is_expired 1000 = true ∧
    (AuthTokens.mk "a" "r" "i" "B" 3600 900).is_expired 1000 = true :=
  ⟨(is_expired_boundary ⟨"a", "r", "i", "B", 3600, 1300⟩ 1000).2.1 rfl,
   (is_expired_boundary ⟨"a", "r", "i", "B", 3600, 1299⟩ 1000).2.2.1 rfl,
   (is_expired_boundary ⟨"a", "r", "i", "B", 3600, 900⟩ 1000).2.2.2 (by decide)⟩

/-- C3: a refresh exchange whose success response omits the refresh token
(serde default: empty string) keeps the caller's refresh token `rt`; a
non-empty response token replaces it; in both cases
`expires_at = refresh time + expires_in`. -/
theorem refresh_token_rotation (rt a nr idt tt : String) (ein now : Nat) :
    refresh_access_token rt (.Success a "" idt tt ein) now =
      .ok ⟨a, rt, idt, tt, ein, now + ein⟩ ∧
    (nr ≠ "" →
      refresh_access_token rt (.Success a nr idt tt ein) now =
        .ok ⟨a, nr, idt, tt, ein, now + ein⟩) := by
  refine ⟨rfl, fun hnr => ?_⟩
  simp [refresh_access_token, hnr]

/-- C3 witness: a rotating and a non-rotating server response. -/
theorem refresh_token_rotation_witness :
    refresh_access_token "old-rt" (.Success "a2" "" "i2" "Bearer" 7200) 500 =
      .ok ⟨"a2", "old-rt", "i2", "Bearer", 7200, 7700⟩ ∧
    refresh_access_token "old-rt" (.Success "a2" "new-rt" "i2" "Bearer" 7200) 500 =
      .ok ⟨"a2", "new-rt", "i2", "Bearer", 7200, 7700⟩ :=
  ⟨(refresh_token_rotation "old-rt" "a2" "new-rt" "i2" "Bearer" 7200 500).1,
   (refresh_token_rotation "old-rt" "a2" "new-rt" "i2" "Bearer" 7200 500).2
     (by decide)⟩

/-- C10: persisting a credential with `save_tokens` and reading it back
with `load_tokens` returns it unchanged, field for field, whatever the
token file held before. -/
theorem save_load_roundtrip (t : AuthTokens) (file : Option Json) :
    load_tokens (save_tokens t file) = some t := rfl

/-- C4: a fully successful upload job reports exactly
`Idle, CreatingFile, UploadingFile 0, UploadingFile 100, CreatingMetadata,
Complete`; a job whose step-2 binary PUT fails reports exactly the prefix
through `UploadingFile 0` followed by `Failed`, and never reports
`CreatingMetadata` or `Complete`. -/
theorem upload_job_status_sequence (name : String) (cr : CreateFileResponse)
    (e : UploadError) (mres : Except UploadError Unit) :
    upload_job_statuses (some name) (.ok cr) (.ok ()) (.ok ()) =
      [.Idle, .CreatingFile, .UploadingFile 0, .UploadingFile 100,
       .CreatingMetadata, .Complete] ∧
    upload_job_statuses (some name) (.ok cr) (.error e) mres =
      [.Idle, .CreatingFile, .UploadingFile 0, .Failed e.display] ∧
    UploadStatus.CreatingMetadata ∉
      upload_job_statuses (some name) (.ok cr) (.error e) mres ∧
    UploadStatus.Complete ∉
      upload_job_statuses (some name) (.ok cr) (.error e) mres := by
  refine ⟨rfl, rfl, ?_, ?_⟩ <;> simp [upload_job_statuses, upload_recording]

/-- C5 counter-evidence, evaluating the code on successful runs: the
terminal status of every successful upload is the bare constructor
`UploadStatus.Complete` — two runs whose step 1 assigned different file
ids report identical terminal statuses, so the `Complete` status itself
carries no file identifier; the id is only the function's return value. -/
theorem upload_complete_status_discards_file_id :
    (upload_recording (some "rec.mp4") (.ok ⟨"file-1", "url"⟩)
        (.ok ()) (.ok ())).2 = .ok "file-1" ∧
    (upload_recording (some "rec.mp4") (.ok ⟨"file-2", "url"⟩)
        (.ok ()) (.ok ())).2 = .ok "file-2" ∧
    (upload_recording (some "rec.mp4") (.ok ⟨"file-1", "url"⟩)
        (.ok ()) (.ok ())).1.getLast? = some UploadStatus.Complete ∧
    (upload_recording (some "rec.mp4") (.ok ⟨"file-1", "url"⟩)
        (.ok ()) (.ok ())).1.getLast? =
      (upload_recording (some "rec.mp4") (.ok ⟨"file-2", "url"⟩)
        (.ok ()) (.ok ())).1.getLast? :=
  ⟨rfl, rfl, rfl, rfl⟩

/-- C6: with a persisted expired credential holding a non-empty refresh
token, a failed refresh is not propagated: `get_valid_tokens` runs the
device-flow path exactly once and its overall result is the device flow's
result, whatever that is. -/
theorem get_valid_tokens_failed_refresh_falls_through (t : AuthTokens)
    (now : Nat) (e : AuthError) (df : Except AuthError AuthTokens)
    (hexp : t.is_expired now = true) (hrt : t.refresh_token ≠ "") :
    (get_valid_tokens (some t) now (.error e) df).2 = df ∧
    (get_valid_tokens (some t) now (.error e) df).1.count
        AuthEvent.deviceFlowRun = 1 := by
  cases df <;>
    simp [get_valid_tokens, hexp, hrt, device_flow_path, List.count_cons]

/-- C6 witness: an expired credential (1 second of lifetime left), refresh
failing with `Unknown`, device flow succeeding. -/
theorem get_valid_tokens_failed_refresh_falls_through_witness :
    ((AuthTokens.mk "old" "rt" "id" "B" 3600 1001).is_expired 1000 = true ∧
      (AuthTokens.mk "old" "rt" "id" "B" 3600 1001).refresh_token ≠ "") ∧
    (get_valid_tokens (some (AuthTokens.mk "old" "rt" "id" "B" 3600 1001))
        1000 (.error (.Unknown "invalid_grant"))
        (.ok (AuthTokens.mk "new" "rt2" "id2" "B" 3600 4600))).2 =
      .ok (AuthTokens.mk "new" "rt2" "id2" "B" 3600 4600) ∧
    (get_valid_tokens (some (AuthTokens.mk "old" "rt" "id" "B" 3600 1001))
        1000 (.error (.Unknown "invalid_grant"))
        (.ok (AuthTokens.mk "new" "rt2" "id2" "B" 3600 4600))).1.count
      AuthEvent.deviceFlowRun = 1 := by
  have h := get_valid_tokens_failed_refresh_falls_through
    (AuthTokens.mk "old" "rt" "id" "B" 3600 1001) 1000 (.Unknown "invalid_grant")
    (.ok (AuthTokens.mk "new" "rt2" "id2" "B" 3600 4600))
    (by decide) (by decide)
  exact ⟨⟨by decide, by decide⟩, h.1, h.2⟩

/-- C7: with a persisted credential that is not within the 5-minute expiry
margin, `get_valid_tokens` returns it unchanged and performs no network or
persistence operation at all (empty event trace: no refresh exchange, no
device flow, no save). -/
theorem get_valid_tokens_cached_no_network (t : AuthTokens) (now : Nat)
    (refreshResult deviceFlowResult : Except AuthError AuthTokens)
    (h : t.is_expired now = false) :
    get_valid_tokens (some t) now refreshResult deviceFlowResult =
      ([], .ok t) := by
  simp [get_valid_tokens, h]

/-- C7 witness: a credential with a full hour of lifetime left. -/
theorem get_valid_tokens_cached_no_network_witness :
    (AuthTokens.mk "acc" "rt" "id" "B" 3600 4600).is_expired 1000 = false ∧
    get_valid_tokens (some (AuthTokens.mk "acc" "rt" "id" "B" 3600 4600))
        1000 (.error .AccessDenied) (.error .AccessDenied) =
      ([], .ok (AuthTokens.mk "acc" "rt" "id" "B" 3600 4600)) :=
  ⟨by decide,
   get_valid_tokens_cached_no_network (AuthTokens.mk "acc" "rt" "id" "B" 3600 4600)
     1000 (.error .AccessDenied) (.error .AccessDenied) (by decide)⟩

/-- C8: cancelling an in-progress recording (live stream, recording
collaborator yielding the finished file's path) clears the recording and
capturing flags, drops the stream and filter, resets the source name,
clears the shared upload status to the empty string, deletes the recorded
file, and performs no upload-spawning effect. -/
theorem cancel_recording_no_upload (st : BackendState) (path : String)
    (hstream : st.stream = true) (_hrec : st.is_recording = true) :
    handle_cancel_recording st (some path) =
      ({ st with is_recording := false, is_capturing := false,
                 stream := false, current_filter := false,
                 source_name := "No source selected",
                 upload_status := "" }, [.deleteFile path]) ∧
    (∀ p, BackendEffect.spawnUpload p ∉
      (handle_cancel_recording st (some path)).2) := by
  refine ⟨?_, ?_⟩ <;> simp [handle_cancel_recording, stop_capture, hstream]

/-- C8 witness: a concrete recording-in-progress state. -/
theorem cancel_recording_no_upload_witness :
    (BackendState.mk true true true true "Display 1" "Uploading... 0%" "").stream
        = true ∧
    (BackendState.mk true true true true "Display 1" "Uploading... 0%" "").is_recording
        = true ∧
    handle_cancel_recording
        (BackendState.mk true true true true "Display 1" "Uploading... 0%" "")
        (some "/tmp/rec.mp4") =
      (BackendState.mk false false false false "No source selected" "" "",
       [.deleteFile "/tmp/rec.mp4"]) := by
  have h := cancel_recording_no_upload
    (BackendState.mk true true true true "Display 1" "Uploading... 0%" "")
    "/tmp/rec.mp4" rfl rfl
  exact ⟨rfl, rfl, h.1⟩

/-- C9: a `StartRecording` command arriving while no capture is active
(Idle: capturing flag clear, no content filter held) is rejected with the
whole state — recording flag, capturing flag, source name, upload status
and uploaded-file id — unchanged, whatever the recording collaborator
would have answered. -/
theorem start_recording_rejected_when_idle (st : BackendState)
    (startResult : Except String String)
    (hcap : st.is_capturing = false) (_hfil : st.current_filter = false) :
    handle_start_recording st startResult = st := by
  simp [handle_start_recording, hcap]

/-- C9 witness: the pristine Idle state with both a success and a failure
answer from the recording collaborator. -/
theorem start_recording_rejected_when_idle_witness :
    (BackendState.mk false false false false "No source selected" "" "").is_capturing
        = false ∧
    (BackendState.mk false false false false "No source selected" "" "").current_filter
        = false ∧
    handle_start_recording
        (BackendState.mk false false false false "No source selected" "" "")
        (.ok "/tmp/out.mp4") =
      BackendState.mk false false false false "No source selected" "" "" ∧
    handle_start_recording
        (BackendState.mk false false false false "No source selected" "" "")
        (.error "boom") =
      BackendState.mk false false false false "No source selected" "" "" :=
  ⟨rfl, rfl,
   start_recording_rejected_when_idle
     (BackendState.mk false false false false "No source selected" "" "")
     (.ok "/tmp/out.mp4") rfl rfl,
   start_recording_rejected_when_idle
     (BackendState.mk false false false false "No source selected" "" "")
     (.error "boom") rfl rfl⟩

end Talka
